import Mathlib

/-!
A shallow embedding of the recommendation engine of the `sculptor` repository
(`internal/usecase/recommender.go`): the operations `CalculateForDeployment`,
`CalculateForInitContainers` and `CalculateForAll` of `RecommenderUseCase`,
together with the entity types they produce.

Modelling conventions:
* Go `float64` metric values are modelled as exact rationals (`ℚ`);
  Go `int64` values (byte counts, millicore counts, `resource.Quantity.Value()`)
  are modelled as `Int`.
* Go's `int64(x)` conversion of a `float64` truncates toward zero, and Go's
  integer `/` is T-division (truncation toward zero); both are `Int.tdiv` below.
* The two collaborators (`DeploymentGateway`, `MetricsGateway`) are modelled as
  records of response functions.  A Go call `v, err := f(...)` yields both a
  value and a possible error, so each metric query returns a value paired with
  an optional error.  `GetDeployment` is additionally indexed by the number of
  previous calls to it, so that successive calls (one from the main-container
  half and one from the init-container half of `CalculateForAll`) may observe
  different responses, as they can over the network.
* `uc.logger` calls inside the decision logic are modelled by an output list of
  `LogEvent`s, one constructor per `logger.Info` call site of the source.
-/

namespace Sculptor

/-- A Go `error` value, modelled by its message. -/
abbrev GoError := String

/-- `v1.Container`: only the `Name` field is read by the engine. -/
structure Container where
  name : String
  deriving DecidableEq

/-- `d.Spec.Template.Spec`: the pod spec of a deployment, with its main
container list and its init container list. -/
structure PodSpec where
  containers : List Container
  initContainers : List Container
  deriving DecidableEq

/-- `appsv1.Deployment`, reduced to the fields the engine reads
(`Spec.Template.Spec`). -/
structure Deployment where
  spec : PodSpec
  deriving DecidableEq

/-- Result of `CheckForOOMKilledEvents`: Go returns
`(isOOMKilled bool, podName string, currentLimit *resource.Quantity, err error)`.
`currentLimit` is the byte value of the quantity (`.Value()`), when present. -/
structure OOMCheck where
  isOOMKilled : Bool
  podName : String
  currentLimit : Option Int
  err : Option GoError
  deriving DecidableEq

/-- Result of one metrics query: Go returns `(float64, error)`, and the caller
receives both the value and the error. -/
structure MetricResult where
  value : ℚ
  err : Option GoError
  deriving DecidableEq

/-- The `DeploymentGateway` collaborator.  `getDeployment` takes the number of
previous `GetDeployment` calls first, then `namespace` and `name`;
`checkForOOMKilledEvents` takes the deployment and the container name. -/
structure DeploymentGateway where
  getDeployment : Nat → String → String → Except GoError Deployment
  checkForOOMKilledEvents : Deployment → String → OOMCheck

/-- The `MetricsGateway` collaborator.  Each query takes
`namespace, deploymentName, containerName, timeRange`. -/
structure MetricsGateway where
  getMemoryMetrics : String → String → String → String → MetricResult
  getCPURequestMetrics : String → String → String → String → MetricResult
  getCPULimitMetrics : String → String → String → String → MetricResult
  getCPUMedianMetrics : String → String → String → String → MetricResult
  getInitContainerMemoryMetrics : String → String → String → String → MetricResult

/-- `entity.CPURecommendation`: `Request` and `Limit` are milli-quantities
(`resource.NewMilliQuantity`), stored here as their millicore counts. -/
structure CPURecommendation where
  request : Int
  limit : Int
  spikinessWarning : Bool
  deriving DecidableEq

/-- `entity.Recommendation`: `Memory` is a byte quantity, stored as its byte
count. -/
structure Recommendation where
  memory : Int
  isOOMKilled : Bool
  cpu : CPURecommendation
  deriving DecidableEq

/-- `usecase.NamedRecommendation`. -/
structure NamedRecommendation where
  containerName : String
  recommendation : Recommendation
  deriving DecidableEq

/-- `usecase.AllRecommendations`. -/
structure AllRecommendations where
  mainContainers : List NamedRecommendation
  initContainers : List NamedRecommendation
  deriving DecidableEq

/-- One `uc.logger.Info` call site inside the per-container decision logic of
`CalculateForDeployment` (the only logging sites in the engine). -/
inductive LogEvent where
  | cpuRequestFloorApplied (containerName : String)
  | cpuLimitFloorApplied (containerName : String)
  | cpuLimitRaisedToRequest (containerName : String)
  | memoryFloorApplied (containerName : String)
  deriving DecidableEq

/-- Go's `int64(x)` conversion of a `float64`: truncation toward zero. -/
def goInt64 (q : ℚ) : Int := Int.tdiv q.num q.den

/-- Go's `/` on `int64`: T-division (truncation toward zero). -/
def goDiv (a b : Int) : Int := Int.tdiv a b

/-- `spikinessThreshold = 2.0`. -/
def spikinessThreshold : ℚ := 2

/-- `spikinessCPUBuffer = 1.25`. -/
def spikinessCPUBuffer : ℚ := 1.25

/-- `oomMemoryMultiplier = 1.5`. -/
def oomMemoryMultiplier : ℚ := 1.5

/-- `mainContainerMemoryBufferPercent = 120`. -/
def mainContainerMemoryBufferPercent : Int := 120

/-- `initContainerMemoryBufferPercent = 115`. -/
def initContainerMemoryBufferPercent : Int := 115

/-- `minCPURequestMilli = 50`. -/
def minCPURequestMilli : Int := 50

/-- `minCPULimitMilli = 100`. -/
def minCPULimitMilli : Int := 100

/-- `minMemoryBytes = 64 * 1024 * 1024`. -/
def minMemoryBytes : Int := 64 * 1024 * 1024

/-- `resource.MustParse(initMemoryDefault)` for `initMemoryDefault = "128Mi"`,
in bytes. -/
def initMemoryDefaultBytes : Int := 128 * 1024 * 1024

/-- `resource.MustParse(initCPURequestDefault)` for `"100m"`, in millicores. -/
def initCPURequestDefaultMilli : Int := 100

/-- `resource.MustParse(initCPULimitDefault)` for `"1000m"`, in millicores. -/
def initCPULimitDefaultMilli : Int := 1000

/-- Memory recommendation of the OOM branch:
`int64(float64(currentLimit.Value()) * oomMemoryMultiplier)` when a previous
limit was recorded, else the literal `1024*1024*512` (512Mi) fallback. -/
def oomMemoryBytes (currentLimit : Option Int) : Int :=
  match currentLimit with
  | some v => goInt64 ((v : ℚ) * oomMemoryMultiplier)
  | none => 1024 * 1024 * 512

/-- Memory recommendation of the metrics branch:
`(int64(memP99) * mainContainerMemoryBufferPercent) / 100`. -/
def mainMemoryFromMetrics (memP99 : ℚ) : Int :=
  goDiv (goInt64 memP99 * mainContainerMemoryBufferPercent) 100

/-- The spikiness test: `cpuP50 > 0 && cpuP99/cpuP50 > spikinessThreshold`. -/
def isSpiky (cpuP50 cpuP99 : ℚ) : Bool :=
  decide (0 < cpuP50 ∧ spikinessThreshold < cpuP99 / cpuP50)

/-- `cpuLimitValue`: `cpuP99`, multiplied by `spikinessCPUBuffer` when the
workload is spiky. -/
def cpuLimitValue (cpuP50 cpuP99 : ℚ) : ℚ :=
  if isSpiky cpuP50 cpuP99 then cpuP99 * spikinessCPUBuffer else cpuP99

/-- `calculatedCPURequestMilli := int64(cpuP90 * 1000)` before flooring. -/
def rawCPURequestMilli (cpuP90 : ℚ) : Int := goInt64 (cpuP90 * 1000)

/-- `calculatedCPULimitMilli := int64(cpuLimitValue * 1000)` before flooring. -/
def rawCPULimitMilli (cpuP50 cpuP99 : ℚ) : Int :=
  goInt64 (cpuLimitValue cpuP50 cpuP99 * 1000)

/-- The CPU-request floor: clamp up to `minCPURequestMilli`. -/
def flooredCPURequestMilli (raw : Int) : Int :=
  if raw < minCPURequestMilli then minCPURequestMilli else raw

/-- The CPU-limit floor: clamp up to `minCPULimitMilli`. -/
def flooredCPULimitMilli (raw : Int) : Int :=
  if raw < minCPULimitMilli then minCPULimitMilli else raw

/-- The consistency step: if the floored limit is below the request, raise it
to the request. -/
def consistentCPULimitMilli (flooredLimit request : Int) : Int :=
  if flooredLimit < request then request else flooredLimit

/-- The memory floor: clamp up to `minMemoryBytes`. -/
def flooredMemoryBytes (m : Int) : Int :=
  if m < minMemoryBytes then minMemoryBytes else m

/-- One iteration of the per-container loop of `CalculateForDeployment`, given
the OOM-check result and the four fetched metric values.  Returns the
assembled `entity.Recommendation` and the `logger.Info` events emitted, in
source order (request floor, limit floor, limit-below-request, memory
floor). -/
def mainContainerRecommendation (containerName : String) (oom : OOMCheck)
    (memP99 cpuP90 cpuP99 cpuP50 : ℚ) : Recommendation × List LogEvent :=
  let memRecommendation : Int :=
    if oom.isOOMKilled then oomMemoryBytes oom.currentLimit
    else mainMemoryFromMetrics memP99
  let req0 := rawCPURequestMilli cpuP90
  let req := flooredCPURequestMilli req0
  let lim0 := rawCPULimitMilli cpuP50 cpuP99
  let lim1 := flooredCPULimitMilli lim0
  let lim := consistentCPULimitMilli lim1 req
  let mem := flooredMemoryBytes memRecommendation
  let logs : List LogEvent :=
    (if req0 < minCPURequestMilli then [LogEvent.cpuRequestFloorApplied containerName] else [])
      ++ (if lim0 < minCPULimitMilli then [LogEvent.cpuLimitFloorApplied containerName] else [])
      ++ (if lim1 < req then [LogEvent.cpuLimitRaisedToRequest containerName] else [])
      ++ (if memRecommendation < minMemoryBytes then [LogEvent.memoryFloorApplied containerName] else [])
  ({ memory := mem
     isOOMKilled := oom.isOOMKilled
     cpu := { request := req, limit := lim, spikinessWarning := isSpiky cpuP50 cpuP99 } },
   logs)

/-- One iteration of the per-container loop including the collaborator calls.
In the source the memory metric is queried only in the non-OOM branch; here the
query result is a pure function value and the OOM branch of
`mainContainerRecommendation` does not use it. -/
def analyzeMainContainer (k8s : DeploymentGateway) (prom : MetricsGateway) (d : Deployment)
    (ns deploymentName timeRange containerName : String) :
    NamedRecommendation × List LogEvent :=
  let oom := k8s.checkForOOMKilledEvents d containerName
  let memP99 := (prom.getMemoryMetrics ns deploymentName containerName timeRange).value
  let cpuP90 := (prom.getCPURequestMetrics ns deploymentName containerName timeRange).value
  let cpuP99 := (prom.getCPULimitMetrics ns deploymentName containerName timeRange).value
  let cpuP50 := (prom.getCPUMedianMetrics ns deploymentName containerName timeRange).value
  let r := mainContainerRecommendation containerName oom memP99 cpuP90 cpuP99 cpuP50
  ({ containerName := containerName, recommendation := r.1 }, r.2)

/-- The container-selection step of `CalculateForDeployment`: a supplied target
name is kept only if it occurs in the main container list (otherwise the
selection is empty); with no target, all main container names in declaration
order. -/
def mainContainersToAnalyze (d : Deployment) (targetContainerName : String) : List String :=
  if targetContainerName ≠ "" then
    if d.spec.containers.any fun c => c.name == targetContainerName then
      [targetContainerName]
    else []
  else
    d.spec.containers.map fun c => c.name

/-- `(uc *RecommenderUseCase) CalculateForDeployment`.  `gdIdx` is the number
of previous `GetDeployment` calls on the gateway (see `DeploymentGateway`). -/
def CalculateForDeployment (k8s : DeploymentGateway) (prom : MetricsGateway) (gdIdx : Nat)
    (ns deploymentName targetContainerName timeRange : String) :
    Except GoError (List NamedRecommendation × List LogEvent) :=
  match k8s.getDeployment gdIdx ns deploymentName with
  | .error e => .error ("could not get deployment: " ++ e)
  | .ok d =>
    let names := mainContainersToAnalyze d targetContainerName
    let analyzed := names.map fun cn =>
      analyzeMainContainer k8s prom d ns deploymentName timeRange cn
    .ok (analyzed.map Prod.fst, (analyzed.map Prod.snd).flatten)

/-- The container-selection step of `CalculateForInitContainers`, over the init
container list. -/
def initContainersToAnalyze (d : Deployment) (targetContainerName : String) : List String :=
  if targetContainerName ≠ "" then
    if d.spec.initContainers.any fun c => c.name == targetContainerName then
      [targetContainerName]
    else []
  else
    d.spec.initContainers.map fun c => c.name

/-- The per-container body of `CalculateForInitContainers`: buffered maximum
observed memory when positive, the fixed defaults otherwise; CPU is always the
fixed default pair. -/
def initContainerRecommendation (memMax : ℚ) : Recommendation :=
  let memory : Int :=
    if 0 < memMax then
      goDiv (goInt64 memMax * initContainerMemoryBufferPercent) 100
    else initMemoryDefaultBytes
  { memory := memory
    isOOMKilled := false
    cpu := { request := initCPURequestDefaultMilli
             limit := initCPULimitDefaultMilli
             spikinessWarning := false } }

/-- `(uc *RecommenderUseCase) CalculateForInitContainers`. -/
def CalculateForInitContainers (k8s : DeploymentGateway) (prom : MetricsGateway) (gdIdx : Nat)
    (ns deploymentName targetContainerName timeRange : String) :
    Except GoError (List NamedRecommendation) :=
  match k8s.getDeployment gdIdx ns deploymentName with
  | .error e => .error ("could not get deployment: " ++ e)
  | .ok d =>
    .ok ((initContainersToAnalyze d targetContainerName).map fun cn =>
      { containerName := cn
        recommendation := initContainerRecommendation
          (prom.getInitContainerMemoryMetrics ns deploymentName cn timeRange).value })

/-- `(uc *RecommenderUseCase) CalculateForAll`: the main half observes the
first `GetDeployment` response, the init half the second. -/
def CalculateForAll (k8s : DeploymentGateway) (prom : MetricsGateway)
    (ns deploymentName targetContainerName timeRange : String) :
    Except GoError AllRecommendations :=
  match CalculateForDeployment k8s prom 0 ns deploymentName targetContainerName timeRange with
  | .error e => .error ("error calculating main container recommendations: " ++ e)
  | .ok (mains, _) =>
    match CalculateForInitContainers k8s prom 1 ns deploymentName targetContainerName timeRange with
    | .error e => .error ("error calculating init container recommendations: " ++ e)
    | .ok inits => .ok { mainContainers := mains, initContainers := inits }

/-! ### Basic facts about the per-container computation -/

theorem mainContainerRecommendation_cpu (cn : String) (oom : OOMCheck) (m p90 p99 p50 : ℚ) :
    (mainContainerRecommendation cn oom m p90 p99 p50).1.cpu =
      { request := flooredCPURequestMilli (rawCPURequestMilli p90)
        limit := consistentCPULimitMilli (flooredCPULimitMilli (rawCPULimitMilli p50 p99))
          (flooredCPURequestMilli (rawCPURequestMilli p90))
        spikinessWarning := isSpiky p50 p99 } := rfl

theorem mainContainerRecommendation_memory (cn : String) (oom : OOMCheck) (m p90 p99 p50 : ℚ) :
    (mainContainerRecommendation cn oom m p90 p99 p50).1.memory =
      flooredMemoryBytes
        (if oom.isOOMKilled then oomMemoryBytes oom.currentLimit
         else mainMemoryFromMetrics m) := rfl

theorem mainContainerRecommendation_isOOMKilled (cn : String) (oom : OOMCheck)
    (m p90 p99 p50 : ℚ) :
    (mainContainerRecommendation cn oom m p90 p99 p50).1.isOOMKilled = oom.isOOMKilled := rfl

theorem analyzeMainContainer_rec (k8s : DeploymentGateway) (prom : MetricsGateway)
    (d : Deployment) (ns dep tr cn : String) :
    (analyzeMainContainer k8s prom d ns dep tr cn).1.recommendation =
      (mainContainerRecommendation cn (k8s.checkForOOMKilledEvents d cn)
        (prom.getMemoryMetrics ns dep cn tr).value
        (prom.getCPURequestMetrics ns dep cn tr).value
        (prom.getCPULimitMetrics ns dep cn tr).value
        (prom.getCPUMedianMetrics ns dep cn tr).value).1 := rfl

theorem le_consistentCPULimitMilli (l r : Int) : r ≤ consistentCPULimitMilli l r := by
  unfold consistentCPULimitMilli
  split <;> omega

theorem minCPURequest_le_floored (raw : Int) :
    minCPURequestMilli ≤ flooredCPURequestMilli raw := by
  unfold flooredCPURequestMilli
  split <;> omega

theorem minCPULimit_le_consistent (raw r : Int) :
    minCPULimitMilli ≤ consistentCPULimitMilli (flooredCPULimitMilli raw) r := by
  unfold consistentCPULimitMilli flooredCPULimitMilli minCPULimitMilli
  split <;> split <;> omega

theorem minMemory_le_floored (m : Int) : minMemoryBytes ≤ flooredMemoryBytes m := by
  unfold flooredMemoryBytes
  split <;> omega

/-- On nonnegative values, Go's truncating conversion agrees with ⌊·⌋. -/
theorem goInt64_eq_floor (q : ℚ) (h : 0 ≤ q) : goInt64 q = ⌊q⌋ := by
  unfold goInt64
  rw [Rat.floor_def, Int.tdiv_eq_ediv (Rat.num_nonneg.mpr h) (Int.natCast_nonneg _)]

theorem goInt64_nonneg (q : ℚ) (h : 0 ≤ q) : 0 ≤ goInt64 q := by
  rw [goInt64_eq_floor q h]
  exact Int.le_floor.mpr (by exact_mod_cast h)

/-- Equation lemma: `CalculateForDeployment` when the deployment is found. -/
theorem CalculateForDeployment_ok (k8s : DeploymentGateway) (prom : MetricsGateway)
    (gdIdx : Nat) (ns dep target tr : String) (d : Deployment)
    (hd : k8s.getDeployment gdIdx ns dep = .ok d) :
    CalculateForDeployment k8s prom gdIdx ns dep target tr =
      .ok ((mainContainersToAnalyze d target).map
              (fun cn => (analyzeMainContainer k8s prom d ns dep tr cn).1),
           ((mainContainersToAnalyze d target).map
              (fun cn => (analyzeMainContainer k8s prom d ns dep tr cn).2)).flatten) := by
  unfold CalculateForDeployment
  rw [hd]
  simp [List.map_map, Function.comp_def]

/-- Equation lemma: `CalculateForDeployment` when the deployment lookup
fails. -/
theorem CalculateForDeployment_error (k8s : DeploymentGateway) (prom : MetricsGateway)
    (gdIdx : Nat) (ns dep target tr : String) (e : GoError)
    (hd : k8s.getDeployment gdIdx ns dep = .error e) :
    CalculateForDeployment k8s prom gdIdx ns dep target tr =
      .error ("could not get deployment: " ++ e) := by
  unfold CalculateForDeployment
  rw [hd]

/-- Equation lemma: `CalculateForInitContainers` when the deployment is
found. -/
theorem CalculateForInitContainers_ok (k8s : DeploymentGateway) (prom : MetricsGateway)
    (gdIdx : Nat) (ns dep target tr : String) (d : Deployment)
    (hd : k8s.getDeployment gdIdx ns dep = .ok d) :
    CalculateForInitContainers k8s prom gdIdx ns dep target tr =
      .ok ((initContainersToAnalyze d target).map fun cn =>
        { containerName := cn
          recommendation := initContainerRecommendation
            (prom.getInitContainerMemoryMetrics ns dep cn tr).value }) := by
  unfold CalculateForInitContainers
  rw [hd]

/-- Equation lemma: `CalculateForInitContainers` when the deployment lookup
fails. -/
theorem CalculateForInitContainers_error (k8s : DeploymentGateway) (prom : MetricsGateway)
    (gdIdx : Nat) (ns dep target tr : String) (e : GoError)
    (hd : k8s.getDeployment gdIdx ns dep = .error e) :
    CalculateForInitContainers k8s prom gdIdx ns dep target tr =
      .error ("could not get deployment: " ++ e) := by
  unfold CalculateForInitContainers
  rw [hd]

/-- Members of the main-container result list are the analyzed containers. -/
theorem mem_CalculateForDeployment (k8s : DeploymentGateway) (prom : MetricsGateway)
    (gdIdx : Nat) (ns dep target tr : String) (recs : List NamedRecommendation)
    (logs : List LogEvent) (r : NamedRecommendation)
    (h : CalculateForDeployment k8s prom gdIdx ns dep target tr = .ok (recs, logs))
    (hr : r ∈ recs) :
    ∃ d cn, k8s.getDeployment gdIdx ns dep = .ok d ∧
      cn ∈ mainContainersToAnalyze d target ∧
      r = (analyzeMainContainer k8s prom d ns dep tr cn).1 := by
  unfold CalculateForDeployment at h
  cases hgd : k8s.getDeployment gdIdx ns dep with
  | error e => rw [hgd] at h; exact absurd h (by simp)
  | ok d =>
    rw [hgd] at h
    simp only [Except.ok.injEq, Prod.mk.injEq] at h
    obtain ⟨hrecs, -⟩ := h
    subst hrecs
    simp only [List.map_map, List.mem_map, Function.comp] at hr
    obtain ⟨cn, hcn, hval⟩ := hr
    exact ⟨d, cn, rfl, hcn, hval.symm⟩

/-- Members of the init-container result list are the analyzed init containers. -/
theorem mem_CalculateForInitContainers (k8s : DeploymentGateway) (prom : MetricsGateway)
    (gdIdx : Nat) (ns dep target tr : String) (recs : List NamedRecommendation)
    (r : NamedRecommendation)
    (h : CalculateForInitContainers k8s prom gdIdx ns dep target tr = .ok recs)
    (hr : r ∈ recs) :
    ∃ d cn, k8s.getDeployment gdIdx ns dep = .ok d ∧
      cn ∈ initContainersToAnalyze d target ∧
      r = { containerName := cn
            recommendation := initContainerRecommendation
              (prom.getInitContainerMemoryMetrics ns dep cn tr).value } := by
  unfold CalculateForInitContainers at h
  cases hgd : k8s.getDeployment gdIdx ns dep with
  | error e => rw [hgd] at h; exact absurd h (by simp)
  | ok d =>
    rw [hgd] at h
    simp only [Except.ok.injEq] at h
    subst h
    simp only [List.mem_map] at hr
    obtain ⟨cn, hcn, hval⟩ := hr
    exact ⟨d, cn, rfl, hcn, hval.symm⟩

/-! ### Claim theorems -/

/-- C1: for every input (any deployment, any gateway responses), every
`NamedRecommendation` returned by `CalculateForDeployment` and by
`CalculateForInitContainers` satisfies CPU Limit ≥ CPU Request in
millicores. -/
theorem C1_limit_ge_request (k8s : DeploymentGateway) (prom : MetricsGateway) (gdIdx : Nat)
    (ns dep target tr : String) :
    (∀ recs logs, CalculateForDeployment k8s prom gdIdx ns dep target tr = .ok (recs, logs) →
      ∀ r ∈ recs, r.recommendation.cpu.request ≤ r.recommendation.cpu.limit) ∧
    (∀ recs, CalculateForInitContainers k8s prom gdIdx ns dep target tr = .ok recs →
      ∀ r ∈ recs, r.recommendation.cpu.request ≤ r.recommendation.cpu.limit) := by
  constructor
  · intro recs logs h r hr
    obtain ⟨d, cn, -, -, hrec⟩ :=
      mem_CalculateForDeployment k8s prom gdIdx ns dep target tr recs logs r h hr
    rw [hrec, analyzeMainContainer_rec, mainContainerRecommendation_cpu]
    exact le_consistentCPULimitMilli _ _
  · intro recs h r hr
    obtain ⟨d, cn, -, -, hrec⟩ :=
      mem_CalculateForInitContainers k8s prom gdIdx ns dep target tr recs r h hr
    subst hrec
    unfold initContainerRecommendation initCPURequestDefaultMilli initCPULimitDefaultMilli
    norm_num

/-- C2: for every main container with CPU p50 = x > 0 and p99 = y such that
y/x > 2.0, the CPU limit before flooring equals ⌊y × 1.25 × 1000⌋ millicores
and `SpikinessWarning` is true; for y/x ≤ 2.0 (or p50 ≤ 0), the limit before
flooring equals ⌊y × 1000⌋ millicores and `SpikinessWarning` is false.
(The percentile values supplied by the Metrics Source are nonnegative, which
the second part assumes: for y ≥ 0 Go's truncation agrees with ⌊·⌋.) -/
theorem C2_spikiness (cn : String) (oom : OOMCheck) (memP99 p90 x y : ℚ) :
    (0 < x → 2 < y / x →
      rawCPULimitMilli x y = ⌊y * 1.25 * 1000⌋ ∧
      (mainContainerRecommendation cn oom memP99 p90 y x).1.cpu.spikinessWarning = true) ∧
    (0 ≤ y → (x ≤ 0 ∨ y / x ≤ 2) →
      rawCPULimitMilli x y = ⌊y * 1000⌋ ∧
      (mainContainerRecommendation cn oom memP99 p90 y x).1.cpu.spikinessWarning = false) := by
  constructor
  · intro hx hr
    have hy : 0 < y := by
      have h2x : 2 * x < y := (lt_div_iff₀ hx).mp hr
      nlinarith
    have hspiky : isSpiky x y = true := by
      unfold isSpiky spikinessThreshold
      simp only [decide_eq_true_eq]
      exact ⟨hx, hr⟩
    constructor
    · unfold rawCPULimitMilli cpuLimitValue spikinessCPUBuffer
      rw [hspiky]
      simp only [if_true]
      exact goInt64_eq_floor _
        (mul_nonneg (mul_nonneg hy.le (by norm_num)) (by norm_num))
    · rw [mainContainerRecommendation_cpu]
      exact hspiky
  · intro hy hcond
    have hspiky : isSpiky x y = false := by
      unfold isSpiky spikinessThreshold
      simp only [decide_eq_false_iff_not, not_and, not_lt]
      intro hx
      rcases hcond with h | h
      · exact absurd hx (not_lt.mpr h)
      · exact h
    constructor
    · unfold rawCPULimitMilli cpuLimitValue
      rw [hspiky]
      simp only [Bool.false_eq_true, if_false]
      exact goInt64_eq_floor _ (mul_nonneg hy (by norm_num))
    · rw [mainContainerRecommendation_cpu]
      exact hspiky

/-! ### Concrete fixtures for evaluating the engine -/

def tNs : String := "test-ns"

def tDep : String := "web"

def tTr : String := "7d"

def tNoTarget : String := ""

def tApp : Container := { name := "app" }

def tSidecar : Container := { name := "sidecar" }

def tInitDb : Container := { name := "init-db" }

/-- A deployment with main containers `app`, `sidecar` and init container
`init-db`. -/
def tDeployment : Deployment :=
  { spec := { containers := [tApp, tSidecar], initContainers := [tInitDb] } }

/-- No OOM kill reported, no previously recorded limit. -/
def tNoOOM : OOMCheck :=
  { isOOMKilled := false, podName := "", currentLimit := none, err := none }

/-- A deployment gateway that always returns `tDeployment` and reports no OOM
kill. -/
def tK8sQuiet : DeploymentGateway :=
  { getDeployment := fun _ _ _ => .ok tDeployment
    checkForOOMKilledEvents := fun _ _ => tNoOOM }

/-- A metrics gateway all of whose queries return `0` with no error. -/
def tPromZero : MetricsGateway :=
  { getMemoryMetrics := fun _ _ _ _ => { value := 0, err := none }
    getCPURequestMetrics := fun _ _ _ _ => { value := 0, err := none }
    getCPULimitMetrics := fun _ _ _ _ => { value := 0, err := none }
    getCPUMedianMetrics := fun _ _ _ _ => { value := 0, err := none }
    getInitContainerMemoryMetrics := fun _ _ _ _ => { value := 0, err := none } }

/-- The floor-only recommendation: 64Mi memory, 50m request, 100m limit. -/
def tRecFloors : Recommendation :=
  { memory := 67108864
    isOOMKilled := false
    cpu := { request := 50, limit := 100, spikinessWarning := false } }

/-- The `logger.Info` events of one all-zero container analysis. -/
def tLogsFloors (cn : String) : List LogEvent :=
  [LogEvent.cpuRequestFloorApplied cn, LogEvent.cpuLimitFloorApplied cn,
   LogEvent.memoryFloorApplied cn]

theorem mainContainerRecommendation_zero (cn : String) :
    mainContainerRecommendation cn tNoOOM 0 0 0 0 = (tRecFloors, tLogsFloors cn) := by
  unfold mainContainerRecommendation tNoOOM tRecFloors tLogsFloors
  norm_num [rawCPURequestMilli, rawCPULimitMilli, cpuLimitValue, isSpiky, goInt64, goDiv,
    mainMemoryFromMetrics, flooredCPURequestMilli, flooredCPULimitMilli,
    consistentCPULimitMilli, flooredMemoryBytes, minCPURequestMilli, minCPULimitMilli,
    minMemoryBytes, mainContainerMemoryBufferPercent, spikinessThreshold]

/-- Full evaluation of `CalculateForDeployment` on the all-zero gateways. -/
theorem tCalcZero :
    CalculateForDeployment tK8sQuiet tPromZero 0 tNs tDep tNoTarget tTr =
      .ok ([{ containerName := tApp.name, recommendation := tRecFloors },
            { containerName := tSidecar.name, recommendation := tRecFloors }],
           tLogsFloors tApp.name ++ tLogsFloors tSidecar.name) := by
  unfold CalculateForDeployment tK8sQuiet
  simp only [mainContainersToAnalyze, tNoTarget, tDeployment, analyzeMainContainer, tPromZero,
    List.map, List.map_map, Function.comp]
  simp [mainContainerRecommendation_zero]

/-- An OOM kill with a recorded previous limit of 1024 bytes. -/
def tOOMSmall : OOMCheck :=
  { isOOMKilled := true, podName := "web-abc12", currentLimit := some 1024, err := none }

/-- An OOM kill with no recorded previous limit. -/
def tOOMNone : OOMCheck :=
  { isOOMKilled := true, podName := "web-abc12", currentLimit := none, err := none }

/-- A deployment with the single main container `app`. -/
def tDeploymentSolo : Deployment :=
  { spec := { containers := [tApp], initContainers := [tInitDb] } }

/-- A deployment gateway reporting an OOM kill with previous limit 1024 bytes
on the single main container of `tDeploymentSolo`. -/
def tK8sOOMSmall : DeploymentGateway :=
  { getDeployment := fun _ _ _ => .ok tDeploymentSolo
    checkForOOMKilledEvents := fun _ _ => tOOMSmall }

/-- The recommendation produced for `tOOMSmall` with all-zero metrics:
⌊1024 × 1.5⌋ = 1536 bytes is clamped up to the 64 MiB memory floor. -/
def tRecOOMSmall : Recommendation :=
  { memory := 67108864
    isOOMKilled := true
    cpu := { request := 50, limit := 100, spikinessWarning := false } }

theorem rawCPURequestMilli_zero : rawCPURequestMilli 0 = 0 := by
  norm_num [rawCPURequestMilli, goInt64]

theorem rawCPULimitMilli_zero : rawCPULimitMilli 0 0 = 0 := by
  norm_num [rawCPULimitMilli, cpuLimitValue, isSpiky, spikinessThreshold, goInt64]

theorem isSpiky_zero : isSpiky 0 0 = false := by
  norm_num [isSpiky, spikinessThreshold]

theorem mainContainerRecommendation_oomSmall (cn : String) :
    mainContainerRecommendation cn tOOMSmall 0 0 0 0 = (tRecOOMSmall, tLogsFloors cn) := by
  have h1536 : goInt64 ((1024 : ℚ) * oomMemoryMultiplier) = 1536 := by
    have e : ((1024 : ℚ) * oomMemoryMultiplier) = 1536 := by
      norm_num [oomMemoryMultiplier]
    rw [e]
    decide
  unfold mainContainerRecommendation tOOMSmall tRecOOMSmall tLogsFloors oomMemoryBytes
  norm_num [h1536, rawCPURequestMilli_zero, rawCPULimitMilli_zero, isSpiky_zero,
    flooredCPURequestMilli, flooredCPULimitMilli, consistentCPULimitMilli, flooredMemoryBytes,
    minCPURequestMilli, minCPULimitMilli, minMemoryBytes]

/-- Witness for C2: p50 = 1, p99 = 3 is spiky (ratio 3 > 2); p50 = 1,
p99 = 2 is not (ratio 2 ≤ 2). -/
theorem C2_spikiness_witness :
    (rawCPULimitMilli 1 3 = ⌊(3 : ℚ) * 1.25 * 1000⌋ ∧
      (mainContainerRecommendation tApp.name tNoOOM 0 0 3 1).1.cpu.spikinessWarning = true) ∧
    (rawCPULimitMilli 1 2 = ⌊(2 : ℚ) * 1000⌋ ∧
      (mainContainerRecommendation tApp.name tNoOOM 0 0 2 1).1.cpu.spikinessWarning = false) :=
  ⟨(C2_spikiness tApp.name tNoOOM 0 0 1 3).1 (by norm_num) (by norm_num),
   (C2_spikiness tApp.name tNoOOM 0 0 1 2).2 (by norm_num) (Or.inr (by norm_num))⟩

/-- C3 (amended): for every container where the gateway reports an OOM kill,
the recommendation has `IsOOMKilled = true`; its memory equals
⌊previousLimit × 1.5⌋ clamped up to the 64 MiB floor when a previous limit was
recorded (stated for nonnegative byte counts), and the fixed 512 MiB default
when none was; the Prometheus memory value is fully ignored for the memory
decision in that branch, while CPU is still computed from the percentile
metrics. -/
theorem C3_oom_memory (cn : String) (oom : OOMCheck) (memP99 p90 p99 p50 : ℚ)
    (hoom : oom.isOOMKilled = true) :
    (mainContainerRecommendation cn oom memP99 p90 p99 p50).1.isOOMKilled = true ∧
    (∀ v : Int, oom.currentLimit = some v → 0 ≤ v →
      (mainContainerRecommendation cn oom memP99 p90 p99 p50).1.memory =
        flooredMemoryBytes ⌊(v : ℚ) * 1.5⌋) ∧
    (oom.currentLimit = none →
      (mainContainerRecommendation cn oom memP99 p90 p99 p50).1.memory = 1024 * 1024 * 512) ∧
    (∀ memP99' : ℚ, (mainContainerRecommendation cn oom memP99' p90 p99 p50).1.memory =
      (mainContainerRecommendation cn oom memP99 p90 p99 p50).1.memory) ∧
    (mainContainerRecommendation cn oom memP99 p90 p99 p50).1.cpu.request =
      flooredCPURequestMilli (rawCPURequestMilli p90) ∧
    (mainContainerRecommendation cn oom memP99 p90 p99 p50).1.cpu.limit =
      consistentCPULimitMilli (flooredCPULimitMilli (rawCPULimitMilli p50 p99))
        (flooredCPURequestMilli (rawCPURequestMilli p90)) := by
  refine ⟨?_, ?_, ?_, ?_, ?_, ?_⟩
  · rw [mainContainerRecommendation_isOOMKilled, hoom]
  · intro v hv hv0
    rw [mainContainerRecommendation_memory, hoom, if_pos rfl, hv,
      show oomMemoryBytes (some v) = goInt64 ((v : ℚ) * oomMemoryMultiplier) from rfl,
      goInt64_eq_floor _ (mul_nonneg (show (0 : ℚ) ≤ (v : ℚ) by exact_mod_cast hv0)
        (by norm_num [oomMemoryMultiplier])), oomMemoryMultiplier]
  · intro hv
    rw [mainContainerRecommendation_memory, hoom, if_pos rfl, hv,
      show oomMemoryBytes none = 1024 * 1024 * 512 from rfl]
    unfold flooredMemoryBytes minMemoryBytes
    norm_num
  · intro memP99'
    rw [mainContainerRecommendation_memory, mainContainerRecommendation_memory, hoom,
      if_pos rfl, if_pos rfl]
  · rw [mainContainerRecommendation_cpu]
  · rw [mainContainerRecommendation_cpu]

/-- C3 counterexample: on a container with an OOM kill and a recorded previous
limit of 1024 bytes, the returned memory is the 64 MiB floor (67108864 bytes),
not ⌊1024 × 1.5⌋ = 1536 as the claim states. -/
theorem C3_counterexample :
    CalculateForDeployment tK8sOOMSmall tPromZero 0 tNs tDep tNoTarget tTr =
      .ok ([{ containerName := tApp.name, recommendation := tRecOOMSmall }],
        tLogsFloors tApp.name) ∧
    tRecOOMSmall.memory = 67108864 ∧
    ⌊(1024 : ℚ) * 1.5⌋ = 1536 ∧
    tRecOOMSmall.memory ≠ ⌊(1024 : ℚ) * 1.5⌋ := by
  have e : ((1024 : ℚ) * 1.5) = 1536 := by norm_num
  refine ⟨?_, rfl, ?_, ?_⟩
  · unfold CalculateForDeployment tK8sOOMSmall
    simp only [mainContainersToAnalyze, tNoTarget, tDeploymentSolo, analyzeMainContainer,
      tPromZero, List.map, List.map_map, Function.comp]
    simp [mainContainerRecommendation_oomSmall]
  · rw [e]
    simp
  · rw [e]
    simp [tRecOOMSmall]

/-- Witness for C3: the amended claim at a previous limit of 1024 bytes and at
no recorded previous limit. -/
theorem C3_oom_memory_witness :
    (mainContainerRecommendation tApp.name tOOMSmall 0 0 0 0).1.memory =
      flooredMemoryBytes ⌊(1024 : ℚ) * 1.5⌋ ∧
    (mainContainerRecommendation tApp.name tOOMNone 0 0 0 0).1.memory = 1024 * 1024 * 512 :=
  ⟨(C3_oom_memory tApp.name tOOMSmall 0 0 0 0 rfl).2.1 1024 rfl (by norm_num),
   (C3_oom_memory tApp.name tOOMNone 0 0 0 0 rfl).2.2.1 rfl⟩

/-- C4: for every main container without an OOM signal, recommended memory
before flooring equals `(int64(p99bytes) * 120) / 100` computed in integer
arithmetic on the 99th-percentile working-set bytes (the output memory is the
64 MiB clamp of exactly that integer expression); in particular a p99 of
exactly 104857600 bytes yields exactly 125829120 bytes. -/
theorem C4_memory_buffer (cn : String) (oom : OOMCheck) (memP99 p90 p99 p50 : ℚ)
    (hoom : oom.isOOMKilled = false) :
    (mainContainerRecommendation cn oom memP99 p90 p99 p50).1.memory =
      flooredMemoryBytes (goDiv (goInt64 memP99 * 120) 100) ∧
    (memP99 = 104857600 →
      (mainContainerRecommendation cn oom memP99 p90 p99 p50).1.memory = 125829120) := by
  have hmem : (mainContainerRecommendation cn oom memP99 p90 p99 p50).1.memory =
      flooredMemoryBytes (goDiv (goInt64 memP99 * 120) 100) := by
    rw [mainContainerRecommendation_memory, hoom]
    simp only [Bool.false_eq_true, if_false]
    rw [mainMemoryFromMetrics, mainContainerMemoryBufferPercent]
  refine ⟨hmem, fun h => ?_⟩
  subst h
  rw [hmem]
  have : goInt64 ((104857600 : ℚ)) = 104857600 := by decide
  rw [this]
  unfold flooredMemoryBytes goDiv minMemoryBytes
  decide

/-- Witness for C4 at p99 = 104857600 bytes (100 MiB). -/
theorem C4_memory_buffer_witness :
    (mainContainerRecommendation tApp.name tNoOOM 104857600 0 0 0).1.memory = 125829120 :=
  (C4_memory_buffer tApp.name tNoOOM 104857600 0 0 0 rfl).2 rfl

/-- Witness for C1 at the all-zero gateways. -/
theorem C1_limit_ge_request_witness :
    tRecFloors.cpu.request ≤ tRecFloors.cpu.limit :=
  (C1_limit_ge_request tK8sQuiet tPromZero 0 tNs tDep tNoTarget tTr).1
    [{ containerName := tApp.name, recommendation := tRecFloors },
     { containerName := tSidecar.name, recommendation := tRecFloors }]
    (tLogsFloors tApp.name ++ tLogsFloors tSidecar.name) tCalcZero
    { containerName := tApp.name, recommendation := tRecFloors } (by simp)

/-- C5: every main-container recommendation satisfies Memory ≥ 64 MiB, CPU
request ≥ 50 millicores and CPU limit ≥ 100 millicores after flooring; in
particular, when all metrics return 0 and there is no OOM signal, each
container still receives a recommendation of exactly 64 MiB memory, 50m CPU
request and 100m CPU limit (it is not skipped). -/
theorem C5_floors (k8s : DeploymentGateway) (prom : MetricsGateway) (gdIdx : Nat)
    (ns dep target tr : String) :
    (∀ recs logs, CalculateForDeployment k8s prom gdIdx ns dep target tr = .ok (recs, logs) →
      ∀ r ∈ recs, minMemoryBytes ≤ r.recommendation.memory ∧
        minCPURequestMilli ≤ r.recommendation.cpu.request ∧
        minCPULimitMilli ≤ r.recommendation.cpu.limit) ∧
    CalculateForDeployment tK8sQuiet tPromZero 0 tNs tDep tNoTarget tTr =
      .ok ([{ containerName := tApp.name, recommendation := tRecFloors },
            { containerName := tSidecar.name, recommendation := tRecFloors }],
        tLogsFloors tApp.name ++ tLogsFloors tSidecar.name) ∧
    tRecFloors.memory = 67108864 ∧
    tRecFloors.cpu.request = 50 ∧
    tRecFloors.cpu.limit = 100 := by
  refine ⟨?_, tCalcZero, rfl, rfl, rfl⟩
  intro recs logs h r hr
  obtain ⟨d, cn, -, -, hrec⟩ :=
    mem_CalculateForDeployment k8s prom gdIdx ns dep target tr recs logs r h hr
  rw [hrec, analyzeMainContainer_rec]
  refine ⟨?_, ?_, ?_⟩
  · rw [mainContainerRecommendation_memory]
    exact minMemory_le_floored _
  · rw [mainContainerRecommendation_cpu]
    exact minCPURequest_le_floored _
  · rw [mainContainerRecommendation_cpu]
    exact minCPULimit_le_consistent _ _

/-- Witness for C5 at the all-zero gateways. -/
theorem C5_floors_witness :
    minMemoryBytes ≤ tRecFloors.memory ∧
    minCPURequestMilli ≤ tRecFloors.cpu.request ∧
    minCPULimitMilli ≤ tRecFloors.cpu.limit :=
  (C5_floors tK8sQuiet tPromZero 0 tNs tDep tNoTarget tTr).1
    [{ containerName := tApp.name, recommendation := tRecFloors },
     { containerName := tSidecar.name, recommendation := tRecFloors }]
    (tLogsFloors tApp.name ++ tLogsFloors tSidecar.name) tCalcZero
    { containerName := tApp.name, recommendation := tRecFloors } (by simp)

theorem analyzeMainContainer_name (k8s : DeploymentGateway) (prom : MetricsGateway)
    (d : Deployment) (ns dep tr cn : String) :
    (analyzeMainContainer k8s prom d ns dep tr cn).1.containerName = cn := rfl

/-- C6: for every deployment and every supplied target container name that
does not occur in the deployment's main container list,
`CalculateForDeployment` returns an empty result and no error; when no target
is supplied, every main container is analyzed and the output preserves
declaration order. -/
theorem C6_container_selection (k8s : DeploymentGateway) (prom : MetricsGateway) (gdIdx : Nat)
    (ns dep target tr : String) (d : Deployment)
    (hd : k8s.getDeployment gdIdx ns dep = .ok d) :
    (target ≠ "" → (∀ c ∈ d.spec.containers, c.name ≠ target) →
      CalculateForDeployment k8s prom gdIdx ns dep target tr = .ok ([], [])) ∧
    (target = "" →
      ∃ recs logs, CalculateForDeployment k8s prom gdIdx ns dep target tr = .ok (recs, logs) ∧
        recs.map (fun r => r.containerName) = d.spec.containers.map (fun c => c.name)) := by
  constructor
  · intro hne hnone
    have hsel : mainContainersToAnalyze d target = [] := by
      unfold mainContainersToAnalyze
      have hany : (d.spec.containers.any fun c => c.name == target) = false := by
        simp only [List.any_eq_false, beq_iff_eq]
        exact hnone
      rw [if_pos hne, hany]
      simp
    rw [CalculateForDeployment_ok k8s prom gdIdx ns dep target tr d hd, hsel]
    rfl
  · intro h0
    rw [CalculateForDeployment_ok k8s prom gdIdx ns dep target tr d hd]
    refine ⟨_, _, rfl, ?_⟩
    have hsel : mainContainersToAnalyze d target = d.spec.containers.map fun c => c.name := by
      unfold mainContainersToAnalyze
      rw [if_neg (by simp [h0])]
    rw [hsel]
    simp [List.map_map, Function.comp, analyzeMainContainer_name]

def tGhost : String := "ghost"

/-- Witness for C6: the target `ghost` matches no container of `tDeployment`;
with no target both containers appear in declaration order. -/
theorem C6_container_selection_witness :
    CalculateForDeployment tK8sQuiet tPromZero 0 tNs tDep tGhost tTr = .ok ([], []) ∧
    (∃ recs logs,
      CalculateForDeployment tK8sQuiet tPromZero 0 tNs tDep tNoTarget tTr = .ok (recs, logs) ∧
      recs.map (fun r => r.containerName) =
        tDeployment.spec.containers.map (fun c => c.name)) :=
  ⟨(C6_container_selection tK8sQuiet tPromZero 0 tNs tDep tGhost tTr tDeployment rfl).1
      (by decide) (by decide),
   (C6_container_selection tK8sQuiet tPromZero 0 tNs tDep tNoTarget tTr tDeployment rfl).2 rfl⟩

/-- Two metrics gateways agreeing on every returned value (their error
components may differ arbitrarily). -/
def sameMetricValues (prom prom' : MetricsGateway) : Prop :=
  ∀ a b c e : String,
    (prom.getMemoryMetrics a b c e).value = (prom'.getMemoryMetrics a b c e).value ∧
    (prom.getCPURequestMetrics a b c e).value = (prom'.getCPURequestMetrics a b c e).value ∧
    (prom.getCPULimitMetrics a b c e).value = (prom'.getCPULimitMetrics a b c e).value ∧
    (prom.getCPUMedianMetrics a b c e).value = (prom'.getCPUMedianMetrics a b c e).value

theorem analyzeMainContainer_congr (k8s : DeploymentGateway) (prom prom' : MetricsGateway)
    (d : Deployment) (ns dep tr cn : String) (h : sameMetricValues prom prom') :
    analyzeMainContainer k8s prom d ns dep tr cn =
      analyzeMainContainer k8s prom' d ns dep tr cn := by
  obtain ⟨h1, h2, h3, h4⟩ := h ns dep cn tr
  unfold analyzeMainContainer
  rw [h1, h2, h3, h4]

/-- C7 (amended): a failing per-container metric query is silently discarded —
the result (including the emitted log events) depends only on the values the
gateway returns alongside the errors, never on the errors themselves; given
the deployment, the call succeeds and still produces one recommendation per
analyzed container; only a failure of the initial deployment retrieval is
fatal and propagated. -/
theorem C7_metric_errors_ignored (k8s : DeploymentGateway) (prom prom' : MetricsGateway)
    (gdIdx : Nat) (ns dep target tr : String) (h : sameMetricValues prom prom') :
    (CalculateForDeployment k8s prom gdIdx ns dep target tr =
      CalculateForDeployment k8s prom' gdIdx ns dep target tr) ∧
    (∀ d, k8s.getDeployment gdIdx ns dep = .ok d →
      ∃ recs logs, CalculateForDeployment k8s prom gdIdx ns dep target tr = .ok (recs, logs) ∧
        recs.length = (mainContainersToAnalyze d target).length) ∧
    (∀ e, k8s.getDeployment gdIdx ns dep = .error e →
      CalculateForDeployment k8s prom gdIdx ns dep target tr =
        .error ("could not get deployment: " ++ e)) := by
  refine ⟨?_, ?_, ?_⟩
  · cases hgd : k8s.getDeployment gdIdx ns dep with
    | error e =>
      rw [CalculateForDeployment_error k8s prom gdIdx ns dep target tr e hgd,
        CalculateForDeployment_error k8s prom' gdIdx ns dep target tr e hgd]
    | ok d =>
      rw [CalculateForDeployment_ok k8s prom gdIdx ns dep target tr d hgd,
        CalculateForDeployment_ok k8s prom' gdIdx ns dep target tr d hgd]
      have hfn : ∀ cn, analyzeMainContainer k8s prom d ns dep tr cn =
          analyzeMainContainer k8s prom' d ns dep tr cn :=
        fun cn => analyzeMainContainer_congr k8s prom prom' d ns dep tr cn h
      simp only [hfn]
  · intro d hd
    rw [CalculateForDeployment_ok k8s prom gdIdx ns dep target tr d hd]
    exact ⟨_, _, rfl, by simp⟩
  · intro e he
    exact CalculateForDeployment_error k8s prom gdIdx ns dep target tr e he

def tPromErrMsg : GoError := "prometheus query failed"

/-- A metrics gateway whose memory query always fails (returning value 0
alongside the error, as the Prometheus gateway of the repository does). -/
def tPromMemErr : MetricsGateway :=
  { getMemoryMetrics := fun _ _ _ _ => { value := 0, err := some tPromErrMsg }
    getCPURequestMetrics := fun _ _ _ _ => { value := 0, err := none }
    getCPULimitMetrics := fun _ _ _ _ => { value := 0, err := none }
    getCPUMedianMetrics := fun _ _ _ _ => { value := 0, err := none }
    getInitContainerMemoryMetrics := fun _ _ _ _ => { value := 0, err := none } }

def tBoom : GoError := "connection refused"

/-- A deployment gateway whose `GetDeployment` always fails. -/
def tK8sDown : DeploymentGateway :=
  { getDeployment := fun _ _ _ => .error tBoom
    checkForOOMKilledEvents := fun _ _ => tNoOOM }

/-- C7 counterexample: the per-container memory query fails, yet the call
returns ok and its log output is exactly the three floor events per container
— identical to the run where the query succeeds — so nothing about the failure
is logged (the claim says the failure is logged). -/
theorem C7_counterexample :
    CalculateForDeployment tK8sQuiet tPromMemErr 0 tNs tDep tNoTarget tTr =
      CalculateForDeployment tK8sQuiet tPromZero 0 tNs tDep tNoTarget tTr ∧
    CalculateForDeployment tK8sQuiet tPromMemErr 0 tNs tDep tNoTarget tTr =
      .ok ([{ containerName := tApp.name, recommendation := tRecFloors },
            { containerName := tSidecar.name, recommendation := tRecFloors }],
        tLogsFloors tApp.name ++ tLogsFloors tSidecar.name) := by
  have hsame : sameMetricValues tPromMemErr tPromZero := fun _ _ _ _ => ⟨rfl, rfl, rfl, rfl⟩
  have heq : CalculateForDeployment tK8sQuiet tPromMemErr 0 tNs tDep tNoTarget tTr =
      CalculateForDeployment tK8sQuiet tPromZero 0 tNs tDep tNoTarget tTr := by
    rw [CalculateForDeployment_ok tK8sQuiet tPromMemErr 0 tNs tDep tNoTarget tTr tDeployment rfl,
      CalculateForDeployment_ok tK8sQuiet tPromZero 0 tNs tDep tNoTarget tTr tDeployment rfl]
    have hfn : ∀ cn, analyzeMainContainer tK8sQuiet tPromMemErr tDeployment tNs tDep tTr cn =
        analyzeMainContainer tK8sQuiet tPromZero tDeployment tNs tDep tTr cn :=
      fun cn => analyzeMainContainer_congr tK8sQuiet tPromMemErr tPromZero tDeployment
        tNs tDep tTr cn hsame
    simp only [hfn]
  exact ⟨heq, heq.trans tCalcZero⟩

/-- Witness for C7: a failing memory query leaves the result unchanged, and a
failing deployment lookup is propagated with the wrapping message. -/
theorem C7_metric_errors_ignored_witness :
    (CalculateForDeployment tK8sQuiet tPromMemErr 0 tNs tDep tNoTarget tTr =
      CalculateForDeployment tK8sQuiet tPromZero 0 tNs tDep tNoTarget tTr) ∧
    CalculateForDeployment tK8sDown tPromZero 0 tNs tDep tNoTarget tTr =
      .error ("could not get deployment: " ++ tBoom) :=
  ⟨(C7_metric_errors_ignored tK8sQuiet tPromMemErr tPromZero 0 tNs tDep tNoTarget tTr
      (fun _ _ _ _ => ⟨rfl, rfl, rfl, rfl⟩)).1,
   (C7_metric_errors_ignored tK8sDown tPromZero tPromZero 0 tNs tDep tNoTarget tTr
      (fun _ _ _ _ => ⟨rfl, rfl, rfl, rfl⟩)).2.2 tBoom rfl⟩

/-- C8: `CalculateForAll` returns the pair of the main-container and
init-container result sequences; if either sub-calculation returns an error,
`CalculateForAll` returns an error that wraps it and identifies which half
failed; a sub-calculation yielding zero entries is a success with an empty
sequence in the corresponding field. -/
theorem C8_aggregation (k8s : DeploymentGateway) (prom : MetricsGateway)
    (ns dep target tr : String) :
    (∀ mains logs inits,
      CalculateForDeployment k8s prom 0 ns dep target tr = .ok (mains, logs) →
      CalculateForInitContainers k8s prom 1 ns dep target tr = .ok inits →
      CalculateForAll k8s prom ns dep target tr =
        .ok { mainContainers := mains, initContainers := inits }) ∧
    (∀ e, CalculateForDeployment k8s prom 0 ns dep target tr = .error e →
      CalculateForAll k8s prom ns dep target tr =
        .error ("error calculating main container recommendations: " ++ e)) ∧
    (∀ mains logs e,
      CalculateForDeployment k8s prom 0 ns dep target tr = .ok (mains, logs) →
      CalculateForInitContainers k8s prom 1 ns dep target tr = .error e →
      CalculateForAll k8s prom ns dep target tr =
        .error ("error calculating init container recommendations: " ++ e)) := by
  refine ⟨?_, ?_, ?_⟩
  · intro mains logs inits h1 h2
    unfold CalculateForAll
    rw [h1, h2]
  · intro e h1
    unfold CalculateForAll
    rw [h1]
  · intro mains logs e h1 h2
    unfold CalculateForAll
    rw [h1, h2]

/-- A deployment gateway whose first `GetDeployment` call succeeds and whose
later calls fail. -/
def tK8sFlaky : DeploymentGateway :=
  { getDeployment := fun i _ _ => if i = 0 then .ok tDeployment else .error tBoom
    checkForOOMKilledEvents := fun _ _ => tNoOOM }

/-- The init-container default recommendation: 128 MiB, 100m / 1000m. -/
def tRecInitDefault : Recommendation :=
  { memory := 134217728
    isOOMKilled := false
    cpu := { request := 100, limit := 1000, spikinessWarning := false } }

/-- With the target set to the init container's name, the main half selects
nothing and returns empty with no error. -/
theorem tCalcMainInitTarget :
    CalculateForDeployment tK8sQuiet tPromZero 0 tNs tDep tInitDb.name tTr = .ok ([], []) := by
  rw [CalculateForDeployment_ok tK8sQuiet tPromZero 0 tNs tDep tInitDb.name tTr tDeployment rfl]
  simp [mainContainersToAnalyze, tDeployment, tApp, tSidecar, tInitDb]

/-- With the target set to the init container's name, the init half returns
its default recommendation (all-zero metrics). -/
theorem tCalcInitTargetInit :
    CalculateForInitContainers tK8sQuiet tPromZero 1 tNs tDep tInitDb.name tTr =
      .ok [{ containerName := tInitDb.name, recommendation := tRecInitDefault }] := by
  rw [CalculateForInitContainers_ok tK8sQuiet tPromZero 1 tNs tDep tInitDb.name tTr
    tDeployment rfl]
  norm_num [initContainersToAnalyze, tDeployment, tApp, tSidecar, tInitDb, tPromZero,
    initContainerRecommendation, tRecInitDefault, initMemoryDefaultBytes,
    initCPURequestDefaultMilli, initCPULimitDefaultMilli]

/-- The all-zero evaluation of the main half through `tK8sFlaky` (whose first
lookup succeeds). -/
theorem tCalcZeroFlaky :
    CalculateForDeployment tK8sFlaky tPromZero 0 tNs tDep tNoTarget tTr =
      .ok ([{ containerName := tApp.name, recommendation := tRecFloors },
            { containerName := tSidecar.name, recommendation := tRecFloors }],
        tLogsFloors tApp.name ++ tLogsFloors tSidecar.name) := by
  rw [CalculateForDeployment_ok tK8sFlaky tPromZero 0 tNs tDep tNoTarget tTr tDeployment rfl]
  simp only [mainContainersToAnalyze, tNoTarget, tDeployment, analyzeMainContainer, tK8sFlaky,
    tPromZero, List.map, List.map_map, Function.comp]
  simp [mainContainerRecommendation_zero]

/-- Witness for C8: a successful aggregation with an empty main half, a fatal
main-half failure, and a fatal init-half failure after a successful main
half. -/
theorem C8_aggregation_witness :
    CalculateForAll tK8sQuiet tPromZero tNs tDep tInitDb.name tTr =
      .ok { mainContainers := []
            initContainers := [{ containerName := tInitDb.name,
                                 recommendation := tRecInitDefault }] } ∧
    CalculateForAll tK8sDown tPromZero tNs tDep tNoTarget tTr =
      .error ("error calculating main container recommendations: " ++
        ("could not get deployment: " ++ tBoom)) ∧
    CalculateForAll tK8sFlaky tPromZero tNs tDep tNoTarget tTr =
      .error ("error calculating init container recommendations: " ++
        ("could not get deployment: " ++ tBoom)) :=
  ⟨(C8_aggregation tK8sQuiet tPromZero tNs tDep tInitDb.name tTr).1 [] []
      [{ containerName := tInitDb.name, recommendation := tRecInitDefault }]
      tCalcMainInitTarget tCalcInitTargetInit,
   (C8_aggregation tK8sDown tPromZero tNs tDep tNoTarget tTr).2.1 _
      (CalculateForDeployment_error tK8sDown tPromZero 0 tNs tDep tNoTarget tTr tBoom rfl),
   (C8_aggregation tK8sFlaky tPromZero tNs tDep tNoTarget tTr).2.2 _ _ _
      tCalcZeroFlaky
      (CalculateForInitContainers_error tK8sFlaky tPromZero 1 tNs tDep tNoTarget tTr tBoom rfl)⟩

/-- The 1.15 integer buffer never goes below its nonnegative input. -/
theorem le_initBuffer (n : Int) (hn : 0 ≤ n) : n ≤ goDiv (n * 115) 100 := by
  unfold goDiv
  rw [Int.tdiv_eq_ediv (by nlinarith) (by norm_num)]
  calc n = n * 100 / 100 := by rw [Int.mul_ediv_cancel n (by norm_num)]
    _ ≤ n * 115 / 100 := Int.ediv_le_ediv (by norm_num) (by nlinarith)

/-- The full behaviour of the per-container body of the init path. -/
theorem initContainerRecommendation_spec (m : ℚ) :
    (initContainerRecommendation m).cpu.request = 100 ∧
    (initContainerRecommendation m).cpu.limit = 1000 ∧
    (initContainerRecommendation m).cpu.spikinessWarning = false ∧
    (initContainerRecommendation m).isOOMKilled = false ∧
    (0 < m → (initContainerRecommendation m).memory = goDiv (goInt64 m * 115) 100 ∧
      goInt64 m ≤ (initContainerRecommendation m).memory) ∧
    (m ≤ 0 → (initContainerRecommendation m).memory = initMemoryDefaultBytes) := by
  refine ⟨rfl, rfl, rfl, rfl, ?_, ?_⟩
  · intro hv
    have hmem : (initContainerRecommendation m).memory = goDiv (goInt64 m * 115) 100 := by
      simp only [initContainerRecommendation]
      rw [if_pos hv, show initContainerMemoryBufferPercent = (115 : Int) from rfl]
    exact ⟨hmem, hmem ▸ le_initBuffer _ (goInt64_nonneg _ hv.le)⟩
  · intro hv
    simp only [initContainerRecommendation]
    rw [if_neg (not_lt.mpr hv)]

/-- C9 (amended): for every init container, the recommendation's CPU is always
the fixed default pair 100m request / 1000m limit (never computed from
metrics); its memory equals `(int64(memMax) * 115) / 100` when the maximum
observed usage is positive, and the 128 MiB default when the value is ≤ 0; the
returned memory is never below the integer truncation of a metric-derived
positive value (in particular never below whole-number metric values). -/
theorem C9_init_defaults (k8s : DeploymentGateway) (prom : MetricsGateway) (gdIdx : Nat)
    (ns dep target tr : String) (recs : List NamedRecommendation)
    (h : CalculateForInitContainers k8s prom gdIdx ns dep target tr = .ok recs) :
    ∀ r ∈ recs,
      r.recommendation.cpu.request = 100 ∧
      r.recommendation.cpu.limit = 1000 ∧
      r.recommendation.cpu.spikinessWarning = false ∧
      r.recommendation.isOOMKilled = false ∧
      (0 < (prom.getInitContainerMemoryMetrics ns dep r.containerName tr).value →
        r.recommendation.memory = goDiv
          (goInt64 (prom.getInitContainerMemoryMetrics ns dep r.containerName tr).value * 115)
          100 ∧
        goInt64 (prom.getInitContainerMemoryMetrics ns dep r.containerName tr).value ≤
          r.recommendation.memory) ∧
      ((prom.getInitContainerMemoryMetrics ns dep r.containerName tr).value ≤ 0 →
        r.recommendation.memory = initMemoryDefaultBytes) := by
  intro r hr
  obtain ⟨d, cn, -, -, hrec⟩ :=
    mem_CalculateForInitContainers k8s prom gdIdx ns dep target tr recs r h hr
  have hname : r.containerName = cn := by rw [hrec]
  have hrec' : r.recommendation =
      initContainerRecommendation (prom.getInitContainerMemoryMetrics ns dep cn tr).value := by
    rw [hrec]
  rw [hname, hrec']
  exact initContainerRecommendation_spec _

/-- A metrics gateway whose init-container memory maximum is 2 bytes. -/
def tPromInitTwo : MetricsGateway :=
  { getMemoryMetrics := fun _ _ _ _ => { value := 0, err := none }
    getCPURequestMetrics := fun _ _ _ _ => { value := 0, err := none }
    getCPULimitMetrics := fun _ _ _ _ => { value := 0, err := none }
    getCPUMedianMetrics := fun _ _ _ _ => { value := 0, err := none }
    getInitContainerMemoryMetrics := fun _ _ _ _ => { value := 2, err := none } }

/-- Buffered recommendation for a 2-byte init memory maximum:
(2 × 115) / 100 = 2. -/
def tRecInitTwo : Recommendation :=
  { memory := 2
    isOOMKilled := false
    cpu := { request := 100, limit := 1000, spikinessWarning := false } }

theorem tCalcInitTwo :
    CalculateForInitContainers tK8sQuiet tPromInitTwo 0 tNs tDep tNoTarget tTr =
      .ok [{ containerName := tInitDb.name, recommendation := tRecInitTwo }] := rfl

/-- Witness for C9 at a positive metric value of 2 bytes. -/
theorem C9_init_defaults_witness :
    tRecInitTwo.cpu.request = 100 ∧ tRecInitTwo.cpu.limit = 1000 ∧
    tRecInitTwo.memory = goDiv (goInt64 2 * 115) 100 ∧
    goInt64 2 ≤ tRecInitTwo.memory := by
  obtain ⟨h1, h2, -, -, h5, -⟩ :=
    C9_init_defaults tK8sQuiet tPromInitTwo 0 tNs tDep tNoTarget tTr
      [{ containerName := tInitDb.name, recommendation := tRecInitTwo }] tCalcInitTwo
      { containerName := tInitDb.name, recommendation := tRecInitTwo } (by simp)
  have h5' := h5 (by decide)
  exact ⟨h1, h2, h5'.1, h5'.2⟩

/-- A metrics gateway whose init-container memory maximum is 3/2 bytes (a
value exactly representable in float64). -/
def tPromInitFrac : MetricsGateway :=
  { getMemoryMetrics := fun _ _ _ _ => { value := 0, err := none }
    getCPURequestMetrics := fun _ _ _ _ => { value := 0, err := none }
    getCPULimitMetrics := fun _ _ _ _ => { value := 0, err := none }
    getCPUMedianMetrics := fun _ _ _ _ => { value := 0, err := none }
    getInitContainerMemoryMetrics := fun _ _ _ _ => { value := mkRat 3 2, err := none } }

/-- The recommendation produced for the 3/2-byte maximum: 1 byte. -/
def tRecInitFrac : Recommendation :=
  { memory := 1
    isOOMKilled := false
    cpu := { request := 100, limit := 1000, spikinessWarning := false } }

/-- C9 counterexample: a positive metric value of 3/2 bytes yields a returned
memory of `(int64(3/2) * 115) / 100 = 1` byte, which is strictly below the
metric-derived positive value 3/2 — refuting "the returned memory is never
below a metric-derived positive value". -/
theorem C9_counterexample :
    CalculateForInitContainers tK8sQuiet tPromInitFrac 0 tNs tDep tNoTarget tTr =
      .ok [{ containerName := tInitDb.name, recommendation := tRecInitFrac }] ∧
    tRecInitFrac.memory = 1 ∧
    (0 : ℚ) < mkRat 3 2 ∧
    (1 : ℚ) < mkRat 3 2 := by
  refine ⟨rfl, rfl, by decide, by decide⟩

/-- C10: for every deployment and every non-empty target container name that
appears in the main container list but not in the init container list,
`CalculateForAll` succeeds with an empty `InitContainers` sequence: the single
target filter is applied to both halves, so targeting a main container
suppresses all init-container recommendations. -/
theorem C10_target_filter (k8s : DeploymentGateway) (prom : MetricsGateway)
    (ns dep target tr : String) (d : Deployment)
    (h0 : k8s.getDeployment 0 ns dep = .ok d)
    (h1 : k8s.getDeployment 1 ns dep = .ok d)
    (hne : target ≠ "")
    (hmain : ∃ c ∈ d.spec.containers, c.name = target)
    (hinit : ∀ c ∈ d.spec.initContainers, c.name ≠ target) :
    ∃ mains logs,
      CalculateForDeployment k8s prom 0 ns dep target tr = .ok (mains, logs) ∧
      mains.map (fun r => r.containerName) = [target] ∧
      CalculateForAll k8s prom ns dep target tr =
        .ok { mainContainers := mains, initContainers := [] } := by
  have hselMain : mainContainersToAnalyze d target = [target] := by
    unfold mainContainersToAnalyze
    have hany : (d.spec.containers.any fun c => c.name == target) = true := by
      simp only [List.any_eq_true, beq_iff_eq]
      exact hmain
    rw [if_pos hne, hany]
    simp
  have hselInit : initContainersToAnalyze d target = [] := by
    unfold initContainersToAnalyze
    have hany : (d.spec.initContainers.any fun c => c.name == target) = false := by
      simp only [List.any_eq_false, beq_iff_eq]
      exact hinit
    rw [if_pos hne, hany]
    simp
  have hmainEq := CalculateForDeployment_ok k8s prom 0 ns dep target tr d h0
  rw [hselMain] at hmainEq
  have hinitEq := CalculateForInitContainers_ok k8s prom 1 ns dep target tr d h1
  rw [hselInit] at hinitEq
  refine ⟨_, _, hmainEq, by simp [analyzeMainContainer_name], ?_⟩
  unfold CalculateForAll
  rw [hmainEq, hinitEq]
  rfl

/-- Witness for C10: targeting the main container `app` of `tDeployment`. -/
theorem C10_target_filter_witness :
    ∃ mains logs,
      CalculateForDeployment tK8sQuiet tPromZero 0 tNs tDep tApp.name tTr = .ok (mains, logs) ∧
      mains.map (fun r => r.containerName) = [tApp.name] ∧
      CalculateForAll tK8sQuiet tPromZero tNs tDep tApp.name tTr =
        .ok { mainContainers := mains, initContainers := [] } :=
  C10_target_filter tK8sQuiet tPromZero tNs tDep tApp.name tTr tDeployment rfl rfl
    (by decide) ⟨tApp, by simp [tDeployment], rfl⟩ (by decide)

end Sculptor
